import Mathlib

/-!
Verification of the metadata-resolution core of the `yt-msd` repository
(`src/ytmsd.py` and `src/ytmscp_cli.py`) against its specification.

The Python code is shallowly embedded: pure fragments become Lean functions
over `List Char` / `String`, `Option` models Python `None`/missing keys, and
`Except` models raised exceptions.  Network and subprocess effects are
modelled by passing their (parsed) outcomes explicitly as arguments.

ASCII caveat: Python's `str.lower`, `\s`, `\w` and `str.strip` are
Unicode-aware; the embedding models their ASCII behaviour (all strings
appearing in the repository and in the claims are ASCII).
-/

/-- ASCII whitespace, the ASCII fragment of Python's `\s` and `str.strip`. -/
def isWsChar (c : Char) : Bool :=
  c == ' ' || c == '\t' || c == '\n' || c == '\r' ||
  c == Char.ofNat 11 || c == Char.ofNat 12

/-- Case-insensitive character comparison (ASCII), as used by `re.IGNORECASE`. -/
def lowEq (a b : Char) : Bool :=
  a.toLower == b.toLower

/-- If `s` starts with `pat` up to ASCII case, return the remainder. -/
def dropCI : List Char → List Char → Option (List Char)
  | [], s => some s
  | _ :: _, [] => none
  | p :: ps, c :: cs => if lowEq p c then dropCI ps cs else none

/-- If `s` starts with `pat` exactly, return the remainder. -/
def dropPre : List Char → List Char → Option (List Char)
  | [], s => some s
  | _ :: _, [] => none
  | p :: ps, c :: cs => if p == c then dropPre ps cs else none

/-- Substring test, Python's `needle in hay`. -/
def containsSub (needle : List Char) : List Char → Bool
  | [] => (dropPre needle []).isSome
  | c :: s => (dropPre needle (c :: s)).isSome || containsSub needle s

/-- Lazy scan `.*?pat` (case-insensitive `pat`): consume the shortest run of
non-newline characters followed by `pat`, returning the suffix after `pat`.
`.` does not match a newline, so a newline before `pat` makes the scan fail. -/
def lazyFindCI (pat : List Char) : List Char → Option (List Char)
  | [] => dropCI pat []
  | c :: cs =>
    match dropCI pat (c :: cs) with
    | some rest => some rest
    | none => if c == '\n' then none else lazyFindCI pat cs

/-- One pass of `re.sub(pattern, '', s)`: scan left to right, and wherever the
matcher `m` succeeds delete the matched prefix and continue after it.  `fuel`
bounds the recursion; it is adequate because every matcher used below consumes
at least one character. -/
def subAllF (m : List Char → Option (List Char)) : Nat → List Char → List Char
  | 0, s => s
  | _ + 1, [] => []
  | f + 1, c :: s =>
    match m (c :: s) with
    | some rest => subAllF m f rest
    | none => c :: subAllF m f s

/-- `re.sub(pattern, '', s)` for a matcher that consumes at least one char. -/
def subAll (m : List Char → Option (List Char)) (s : List Char) : List Char :=
  subAllF m s.length s

/-- Matcher for `\s*-\s*Topic` (IGNORECASE): maximal whitespace, a dash,
maximal whitespace, then the literal `Topic`. -/
def mDashTopic (s : List Char) : Option (List Char) :=
  match s.dropWhile isWsChar with
  | '-' :: r => dropCI "topic".data (r.dropWhile isWsChar)
  | _ => none

/-- Matcher for `\s*VEVO` (IGNORECASE). -/
def mVevo (s : List Char) : Option (List Char) :=
  dropCI "vevo".data (s.dropWhile isWsChar)

/-- Matcher for the bare literal `Official` (IGNORECASE). -/
def mOfficialLit (s : List Char) : Option (List Char) :=
  dropCI "official".data s

/-- Matcher for `\s*\(Official.*?\)` (IGNORECASE): whitespace, `(Official`,
then lazily anything up to the first `)`. -/
def mParenOfficial (s : List Char) : Option (List Char) :=
  match s.dropWhile isWsChar with
  | '(' :: r =>
    match dropCI "official".data r with
    | some r2 => lazyFindCI [')'] r2
    | none => none
  | _ => none

/-- Matcher for `\s*\[Official.*?\]` (IGNORECASE). -/
def mBracketOfficial (s : List Char) : Option (List Char) :=
  match s.dropWhile isWsChar with
  | '[' :: r =>
    match dropCI "official".data r with
    | some r2 => lazyFindCI [']'] r2
    | none => none
  | _ => none

/-- Matcher for `\s*\(.*?X\)` (IGNORECASE) where `inner` is `X)`; used for the
`(.*?Audio)`, `(.*?Video)` and `(.*?MV)` patterns. -/
def mParenLazy (inner : List Char) (s : List Char) : Option (List Char) :=
  match s.dropWhile isWsChar with
  | '(' :: r => lazyFindCI inner r
  | _ => none

/-- Matcher for `\s*MV\s*` (IGNORECASE). -/
def mMvBare (s : List Char) : Option (List Char) :=
  match dropCI "mv".data (s.dropWhile isWsChar) with
  | some r => some (r.dropWhile isWsChar)
  | none => none

/-- Matcher for `\s*[\(\[]?\s*f(ea)?t\.?\s+.*?[\)\]]?` (IGNORECASE).  Since
`.*?` is lazy and the final bracket class is optional, the match ends right
after the mandatory whitespace run, optionally absorbing one immediately
following `)` or `]`. -/
def mFeatClause (s : List Char) : Option (List Char) :=
  let s1 := s.dropWhile isWsChar
  let s2 := match s1 with
    | '(' :: r => r
    | '[' :: r => r
    | _ => s1
  match s2.dropWhile isWsChar with
  | c :: r =>
    if lowEq c 'f' then
      let afterT : Option (List Char) :=
        match dropCI "eat".data r with
        | some r2 => some r2
        | none =>
          match r with
          | t :: r2 => if lowEq t 't' then some r2 else none
          | [] => none
      match afterT with
      | some r3 =>
        let r4 := match r3 with
          | '.' :: r5 => r5
          | _ => r3
        match r4 with
        | w :: _ =>
          if isWsChar w then
            let r5 := r4.dropWhile isWsChar
            some (match r5 with
                  | ')' :: r6 => r6
                  | ']' :: r6 => r6
                  | _ => r5)
          else none
        | [] => none
      | none => none
    else none
  | [] => none

/-- Characters kept by the final title pass, which deletes every character
that is not a word character (ASCII `\w`), whitespace, dash, slash or
ampersand. -/
def keepTitleChar (c : Char) : Bool :=
  c.isAlphanum || c == '_' || isWsChar c || c == '-' || c == '/' || c == '&'

/-- Title cleaning of `extract_search_query` (ytmsd.py lines 668-675): the
seven `re.sub` passes in source order. -/
def cleanTitle (s : String) : String :=
  let t1 := subAll mParenOfficial s.data
  let t2 := subAll mBracketOfficial t1
  let t3 := subAll (mParenLazy "audio)".data) t2
  let t4 := subAll (mParenLazy "video)".data) t3
  let t5 := subAll (mParenLazy "mv)".data) t4
  let t6 := subAll mMvBare t5
  let t7 := subAll mFeatClause t6
  String.mk (t7.filter keepTitleChar)

/-- Uploader cleaning shared by `extract_search_query` (lines 677-679) and
`get_youtube_fallback_metadata` (lines 709-711, 735-737): strip `- Topic`,
`VEVO` and `Official` boilerplate, in source order. -/
def cleanUploader (s : String) : String :=
  String.mk (subAll mOfficialLit (subAll mVevo (subAll mDashTopic s.data)))

/-- Python `str.strip()` (ASCII whitespace). -/
def stripWsL (l : List Char) : List Char :=
  ((l.dropWhile isWsChar).reverse.dropWhile isWsChar).reverse

/-- Python `str.strip()` on `String`. -/
def pyStrip (s : String) : String :=
  String.mk (stripWsL s.data)

/-- First occurrence split, Python's `s.split(sep, 1)` when `sep in s`. -/
def splitFirst (sep : List Char) : List Char → Option (List Char × List Char)
  | [] =>
    match dropPre sep [] with
    | some rest => some ([], rest)
    | none => none
  | c :: s =>
    match dropPre sep (c :: s) with
    | some rest => some ([], rest)
    | none =>
      match splitFirst sep s with
      | some (pre, post) => some (c :: pre, post)
      | none => none

/-- Python truthiness `or` over an optional string and a string default:
`a or b` yields `a` when it is a non-empty string, else `b`. -/
def pyOrS (a : Option String) (b : String) : String :=
  match a with
  | some s => if s = "" then b else s
  | none => b

/-- Python truthiness `or` over two optional strings (`None` and `''` falsy). -/
def pyOrOpt (a b : Option String) : Option String :=
  match a with
  | some s => if s = "" then b else some s
  | none => b

/-- A yt-dlp track entry, the relevant keys of the JSON dict handed to
`process_track` / `extract_search_query`.  `none` models a missing key. -/
structure Entry where
  track : Option String
  artist : Option String
  title : Option String
  uploader : Option String
  uploadDate : Option String
  thumbnail : Option String
deriving DecidableEq

/-- A metadata record, the dicts produced by the provider classes and the
fallback path.  `none` models both a missing key and a stored `None`. -/
structure MetaRecord where
  title : Option String
  artist : Option String
  album : Option String
  releaseDate : Option String
  thumbnail : Option String
  source : String
deriving DecidableEq

/-- `extract_search_query` (ytmsd.py lines 664-688): clean title and uploader,
split the cleaned title on the first `' - '` when present, else concatenate
cleaned uploader and cleaned title and strip the result. -/
def extractSearchQuery (e : Entry) : String :=
  let t := cleanTitle (e.title.getD "")
  let u := cleanUploader (e.uploader.getD "")
  match splitFirst " - ".data t.data with
  | some (pre, post) => String.mk (stripWsL pre) ++ " " ++ String.mk (stripWsL post)
  | none => pyStrip (u ++ " " ++ t)

/-- Query construction of `process_track` (ytmsd.py lines 836-841):
`query = track or title`; `artist = artist or uploader`; when the latter is
truthy the query is its raw concatenation with the former, otherwise
`extract_search_query` is used. -/
def buildQuery (e : Entry) : String :=
  let query := pyOrS e.track (e.title.getD "")
  let artist := pyOrS e.artist (e.uploader.getD "")
  if artist = "" then extractSearchQuery e else artist ++ " " ++ query

/-- The fields of a successfully fetched yt-dlp JSON object used by
`get_youtube_fallback_metadata`. -/
structure YtBasic where
  title : Option String
  uploader : Option String
  uploadDate : Option String
  thumbnail : Option String
deriving DecidableEq

/-- Title source of `get_youtube_fallback_metadata`: the fetched JSON's
`title` (default `'Unknown'`) when the yt-dlp fetch succeeded, else the
entry's `title` (default `'Unknown'`). -/
def fbTitleSrc (fetched : Option YtBasic) (e : Entry) : String :=
  match fetched with
  | some d => d.title.getD "Unknown"
  | none => e.title.getD "Unknown"

/-- Uploader source of `get_youtube_fallback_metadata`, same selection. -/
def fbUploaderSrc (fetched : Option YtBasic) (e : Entry) : String :=
  match fetched with
  | some d => d.uploader.getD "Unknown"
  | none => e.uploader.getD "Unknown"

/-- `get_youtube_fallback_metadata` (ytmsd.py lines 690-745).  `fetched` is
the parsed yt-dlp JSON when some retry attempt succeeded, `none` when all
attempts failed (the entry-data branch, lines 733-745).  Both branches build
the same record shape; the artist is the boilerplate-cleaned uploader. -/
def ytFallbackMetadata (fetched : Option YtBasic) (e : Entry) : MetaRecord :=
  match fetched with
  | some d =>
    ⟨some (d.title.getD "Unknown"),
     some (cleanUploader (d.uploader.getD "Unknown")),
     none, d.uploadDate, d.thumbnail, "YouTube Fallback"⟩
  | none =>
    ⟨some (e.title.getD "Unknown"),
     some (cleanUploader (e.uploader.getD "Unknown")),
     none, e.uploadDate, e.thumbnail, "YouTube Fallback"⟩

/-- Python `str.lower()` (ASCII). -/
def lowerS (s : String) : String :=
  String.mk (s.data.map Char.toLower)

/-- The autojunk "popular" predicate of `difflib.SequenceMatcher` with
`isjunk=None`: when `b` has at least 200 elements, an element occurring more
than `len(b) / 100 + 1` times is removed from the position index `b2j`. -/
def popularB (b : List Char) (c : Char) : Bool :=
  if 200 ≤ b.length then
    decide (b.length / 100 + 1 < (b.filter (fun d => d == c)).length)
  else false

/-- A candidate longest matching block `(i, j, size)` of `find_longest_match`. -/
structure MatchB where
  mi : Nat
  mj : Nat
  msz : Nat

/-- One row of the `j2len` dynamic program of `find_longest_match`: entry `j`
is the length of the common run ending at `(i, j)`, truncated at the window
`[blo, bhi)`; positions of characters removed by autojunk never seed a run. -/
def fimRow (ai : Char) (b : List Char) (pop : Char → Bool) (blo bhi : Nat)
    (prev : List Nat) : List Nat :=
  (List.range b.length).map (fun j =>
    if (b.getD j (Char.ofNat 0)) == ai && !(pop ai) &&
       decide (blo ≤ j) && decide (j < bhi)
    then (if j == 0 then 0 else prev.getD (j - 1) 0) + 1
    else 0)

/-- Best-block update while scanning row `i` with ascending `j`, mirroring the
strict `k > bestsize` update of `find_longest_match`. -/
def scanRow (i : Nat) (row : List Nat) (best : MatchB) : MatchB :=
  (List.range row.length).foldl
    (fun bst j =>
      let k := row.getD j 0
      if bst.msz < k then ⟨i + 1 - k, j + 1 - k, k⟩ else bst)
    best

/-- The dynamic-programming phase of `find_longest_match` over the window
`a[alo:ahi]`, `b[blo:bhi]`. -/
def findLongestDP (a b : List Char) (pop : Char → Bool)
    (alo ahi blo bhi : Nat) : MatchB :=
  ((List.range' alo (ahi - alo)).foldl
    (fun st i =>
      let row := fimRow (a.getD i (Char.ofNat 1)) b pop blo bhi st.1
      (row, scanRow i row st.2))
    ((List.replicate b.length 0 : List Nat), (⟨alo, blo, 0⟩ : MatchB))).2

/-- Backward extension of the best block over equal non-junk characters
(`bjunk` is empty because the matcher is created with `isjunk=None`). -/
def extendBack (a b : List Char) (alo blo : Nat) : Nat → MatchB → MatchB
  | 0, m => m
  | f + 1, m =>
    if alo < m.mi && blo < m.mj &&
       (a.getD (m.mi - 1) (Char.ofNat 0) == b.getD (m.mj - 1) (Char.ofNat 1))
    then extendBack a b alo blo f ⟨m.mi - 1, m.mj - 1, m.msz + 1⟩
    else m

/-- Forward extension of the best block over equal non-junk characters. -/
def extendFwd (a b : List Char) (ahi bhi : Nat) : Nat → MatchB → MatchB
  | 0, m => m
  | f + 1, m =>
    if m.mi + m.msz < ahi && m.mj + m.msz < bhi &&
       (a.getD (m.mi + m.msz) (Char.ofNat 0) == b.getD (m.mj + m.msz) (Char.ofNat 1))
    then extendFwd a b ahi bhi f ⟨m.mi, m.mj, m.msz + 1⟩
    else m

/-- `SequenceMatcher.find_longest_match` with `isjunk=None`: DP phase, then
the two non-junk extension passes (the junk extension passes never fire since
`bjunk` is empty). -/
def findLongestMatch (a b : List Char) (pop : Char → Bool)
    (alo ahi blo bhi : Nat) : MatchB :=
  extendFwd a b ahi bhi (a.length + b.length)
    (extendBack a b alo blo (a.length + b.length)
      (findLongestDP a b pop alo ahi blo bhi))

/-- Total size of all matching blocks (`get_matching_blocks`): recursively
split around the longest match.  The fuel `a.length + b.length + 1` exceeds
the recursion depth, which shrinks the window total by at least one per
level. -/
def matchTotal (a b : List Char) (pop : Char → Bool) :
    Nat → Nat → Nat → Nat → Nat → Nat
  | 0, _, _, _, _ => 0
  | f + 1, alo, ahi, blo, bhi =>
    let m := findLongestMatch a b pop alo ahi blo bhi
    if m.msz == 0 then 0
    else
      m.msz + matchTotal a b pop f alo m.mi blo m.mj
            + matchTotal a b pop f (m.mi + m.msz) ahi (m.mj + m.msz) bhi

/-- `SequenceMatcher(None, sa, sb).ratio()` as an exact rational:
`2 * M / (len(sa) + len(sb))`, and `1.0` when both strings are empty. -/
def similarityQ (sa sb : String) : ℚ :=
  let a := sa.data
  let b := sb.data
  if a.length + b.length == 0 then 1
  else Rat.divInt
    (2 * matchTotal a b (popularB b) (a.length + b.length + 1) 0 a.length 0 b.length)
    (a.length + b.length)

/-- Ranking key of `process_track` (ytmsd.py lines 883-886): the similarity
ratio of the lowercased query against the lowercased `artist + ' ' + title`
of the candidate, with `r.get(key, '')` modelled by `Option.getD`. -/
def rankScore (q : String) (r : MetaRecord) : ℚ :=
  similarityQ (lowerS q) (lowerS ((r.artist.getD "") ++ " " ++ (r.title.getD "")))

/-- Stable insertion into a descending-sorted list: `x` (originally earlier
than every element of the list) goes before the first element whose key does
not exceed `x`'s, matching CPython's stable `list.sort(key, reverse=True)`. -/
def insertDesc {α : Type} (key : α → ℚ) (x : α) : List α → List α
  | [] => [x]
  | y :: ys => if key y ≤ key x then x :: y :: ys else y :: insertDesc key x ys

/-- Stable descending sort by a rational key. -/
def sortDesc {α : Type} (key : α → ℚ) : List α → List α
  | [] => []
  | x :: xs => insertDesc key x (sortDesc key xs)

/-- `all_results.sort(key=similarity..., reverse=True)` of `process_track`. -/
def rankResults (q : String) (l : List MetaRecord) : List MetaRecord :=
  sortDesc (rankScore q) l

/-- Outcome of the single blocking `input()` read raced against the
10-second countdown in `get_user_choice`. -/
inductive FirstEvent where
  | timeout
  | inputFailed
  | entered (s : String)
deriving DecidableEq

/-- Scripted events for the synchronous re-prompt loop of `get_user_choice`. -/
inductive RepromptEvent where
  | interrupted
  | line (s : String)
deriving DecidableEq

/-- Accumulate a digit run with single underscores between digits, the tail
of CPython's `int()` literal grammar (`pend` records a pending underscore). -/
def pyIntRun : Nat → Bool → List Char → Option Nat
  | acc, false, [] => some acc
  | _, true, [] => none
  | acc, pend, c :: cs =>
    if c.isDigit then pyIntRun (acc * 10 + (c.toNat - 48)) false cs
    else if c == '_' && !pend then pyIntRun acc true cs
    else none

/-- Python `int(s)` on an already-stripped string: optional sign, then a
digit run with optional single underscores between digits. -/
def pyInt (s : String) : Option Int :=
  match s.data with
  | '+' :: c :: cs =>
    if c.isDigit then (pyIntRun (c.toNat - 48) false cs).map (fun n => (n : Int))
    else none
  | '-' :: c :: cs =>
    if c.isDigit then (pyIntRun (c.toNat - 48) false cs).map (fun n => -(n : Int))
    else none
  | c :: cs =>
    if c.isDigit then (pyIntRun (c.toNat - 48) false cs).map (fun n => (n : Int))
    else none
  | [] => none

/-- One validation step of `get_user_choice` (ytmsd.py lines 622-631): `"00"`
maps to `-1`, an integer in `[0, max_choice]` is accepted, anything else
(`ValueError` or out of range) re-prompts, signalled here by `none`. -/
def checkChoice (maxChoice : Nat) (s : String) : Option Int :=
  if s = "00" then some (-1)
  else
    match pyInt s with
    | some n => if 0 ≤ n ∧ n ≤ (maxChoice : Int) then some n else none
    | none => none

/-- The validation loop of `get_user_choice` (ytmsd.py lines 621-636) over a
stripped input line and the scripted later events: an invalid line re-prompts
with the next scripted line; a `KeyboardInterrupt` on a re-prompt behaves
like a timeout.  `none` means the script ran out while the loop was still
blocked waiting for input. -/
def chooseLoop (maxChoice : Nat) : String → List RepromptEvent → Option Int
  | s, [] => checkChoice maxChoice s
  | s, RepromptEvent.interrupted :: _ =>
    match checkChoice maxChoice s with
    | some c => some c
    | none => some (if 0 < maxChoice then 1 else 0)
  | s, RepromptEvent.line t :: rest =>
    match checkChoice maxChoice s with
    | some c => some c
    | none => chooseLoop maxChoice (pyStrip t) rest

/-- `get_user_choice` (ytmsd.py lines 588-636, identical in ytmscp_cli.py):
a countdown timeout or a failed input thread selects `1` when candidates
exist and `0` otherwise; an entered line goes through the validation loop. -/
def getUserChoice (maxChoice : Nat) (first : FirstEvent)
    (rest : List RepromptEvent) : Option Int :=
  match first with
  | FirstEvent.timeout => some (if 0 < maxChoice then 1 else 0)
  | FirstEvent.inputFailed => some (if 0 < maxChoice then 1 else 0)
  | FirstEvent.entered s => chooseLoop maxChoice (pyStrip s) rest

/-- What `process_track` does with the choice returned for an empty
candidate list. -/
inductive ZeroResultsStep where
  | promptLinkOrQuery
  | ytFallback
deriving DecidableEq

/-- ytmsd.py lines 937-979: choice `0` enters the blocking
`input("Enter metadata link or search query: ")` branch; every other choice
(only `-1` is otherwise reachable) uses YouTube fallback metadata. -/
def ytmsdZeroResultsStep (choice : Int) : ZeroResultsStep :=
  if choice = 0 then ZeroResultsStep.promptLinkOrQuery else ZeroResultsStep.ytFallback

/-- ytmscp_cli.py lines 885-891: both reachable choices (`-1` and `0`) use
YouTube fallback metadata immediately, with no further input read. -/
def ytmscpZeroResultsStep (_choice : Int) : ZeroResultsStep :=
  ZeroResultsStep.ytFallback

/-- Routing of the manual link/query prompt (ytmsd.py lines 939-954): empty
input falls back, an `http(s)` link is fetched, anything else re-searches. -/
inductive PromptOutcome where
  | fetchLink (u : String)
  | reSearch (q : String)
  | fallbackMeta
deriving DecidableEq

/-- The `user_input = input(...).strip()` dispatch of ytmsd.py line 939-954. -/
def ytmsdPromptOutcome (raw : String) : PromptOutcome :=
  let s := pyStrip raw
  if s = "" then PromptOutcome.fallbackMeta
  else if "http://".data.isPrefixOf s.data || "https://".data.isPrefixOf s.data then
    PromptOutcome.fetchLink s
  else PromptOutcome.reSearch s

/-- The retry loop shared by the provider operations of ytmsd.py
(`max_retries = 3`, `time.sleep(2)` after every failed attempt except the
last).  `att i` is the outcome of attempt `i`; the second component of the
result is the total seconds slept in backoff. -/
def retryGo {α : Type} (att : Nat → Except String α) (missVal : α) :
    Nat → Nat → Nat → α × Nat
  | _, 0, sl => (missVal, sl)
  | i, n + 1, sl =>
    match att i with
    | Except.ok v => (v, sl)
    | Except.error _ => retryGo att missVal (i + 1) n (if n = 0 then sl else sl + 2)

/-- Run an operation under the retry policy with the given budget, returning
the first success or the operation's miss value, plus seconds of backoff. -/
def retryRun {α : Type} (budget : Nat) (att : Nat → Except String α)
    (missVal : α) : α × Nat :=
  retryGo att missVal 0 budget 0

/-- High-resolution-CDN-with-dimensions pattern of `_select_thumbnail`
(ytmsd.py line 219): the URL contains `lh3.googleusercontent.com` and the
characters `w` and `h`. -/
def highResDim (url : String) : Bool :=
  containsSub "lh3.googleusercontent.com".data url.data &&
  containsSub "w".data url.data && containsSub "h".data url.data

/-- Cover-art handling decision. -/
inductive CoverPlan where
  | asIs
  | cropSquareThenScale (w h : Nat)
deriving DecidableEq

/-- ytmsd.py line 496: any thumbnail URL containing `ytimg.com` gets the
centered square crop followed by a scale to 600x600; every other URL is used
as-is. -/
def coverPlanYtmsd (url : String) : CoverPlan :=
  if containsSub "ytimg.com".data url.data
  then CoverPlan.cropSquareThenScale 600 600
  else CoverPlan.asIs

/-- ytmscp_cli.py line 452: crop only when the URL contains `ytimg.com` and
is not also matched by the high-resolution-CDN-with-dimensions pattern. -/
def coverPlanYtmscp (url : String) : CoverPlan :=
  if containsSub "ytimg.com".data url.data && !(highResDim url)
  then CoverPlan.cropSquareThenScale 600 600
  else CoverPlan.asIs

/-- Enabled-provider flags of the configuration. -/
structure SourceFlags where
  youtubeMusic : Bool
  musicbrainz : Bool
  itunes : Bool
deriving DecidableEq

/-- The configuration mapping (`DEFAULT_CONFIG` shape, ytmsd.py lines 30-39). -/
structure Config where
  sources : SourceFlags
  timeout : Nat
  fetchTimeout : Nat
  coverSize : String
deriving DecidableEq

/-- The module-level default configuration of ytmsd.py, never mutated at
runtime (`load_config` returns a copy or a fresh dict). -/
def defaultConfig : Config :=
  ⟨⟨true, true, false⟩, 15, 120, "600x600"⟩

/-- `load_config` (ytmsd.py lines 41-51): the parsed config file when it
exists and parses, else a copy of the defaults. -/
def loadConfig (file : Option Config) : Config :=
  match file with
  | some c => c
  | none => defaultConfig

/-- The timeout actually passed to every provider search/fetch/cover call
(e.g. ytmsd.py line 130): the call sites read `DEFAULT_CONFIG['timeout']`,
the module default, regardless of the configuration loaded at startup. -/
def providerCallTimeout (_loaded : Config) : Nat :=
  defaultConfig.timeout

/-- The timeout passed to audio-download subprocess calls (ytmsd.py line
425): likewise the module default `DEFAULT_CONFIG['fetch_timeout']`. -/
def providerFetchTimeout (_loaded : Config) : Nat :=
  defaultConfig.fetchTimeout

/-- Python `str.replace(old, new)` with fuel (every needle used is
non-empty, so the fuel `s.length` is adequate). -/
def replaceAllF (needle repl : List Char) : Nat → List Char → List Char
  | 0, s => s
  | _ + 1, [] => []
  | f + 1, c :: s =>
    match dropPre needle (c :: s) with
    | some rest => repl ++ replaceAllF needle repl f rest
    | none => c :: replaceAllF needle repl f s

/-- Python `str.replace(old, new)` for a non-empty `old`. -/
def replaceAll (needle repl s : List Char) : List Char :=
  replaceAllF needle repl s.length s

/-- One parsed yt-dlp JSON line consumed by `YouTubeMusicSource.search`. -/
structure YtData where
  track : Option String
  title : Option String
  artist : Option String
  uploader : Option String
  album : Option String
  releaseDate : Option String
  uploadDate : Option String
  thumbnails : List String
  thumbnail : Option String
  webpageUrl : Option String
deriving DecidableEq

/-- `_select_thumbnail` (ytmsd.py lines 213-228): the first thumbnail URL
matched by the high-resolution-CDN-with-dimensions pattern, else the default
thumbnail, else none. -/
def selectThumb (d : YtData) : Option String :=
  match d.thumbnails.find? highResDim with
  | some u => some u
  | none => d.thumbnail

/-- Record built from one yt-dlp search line (ytmsd.py lines 137-145). -/
def mkYtRecord (d : YtData) : MetaRecord :=
  ⟨pyOrOpt d.track d.title, pyOrOpt d.artist d.uploader, d.album,
   pyOrOpt d.releaseDate d.uploadDate, selectThumb d, "YouTube Music"⟩

/-- `YouTubeMusicSource.search` on a successful subprocess run: build a
record per parseable JSON line (unparseable lines are skipped), keep the
first three (`results[:3]`). -/
def searchYtmOk (lines : List (Option YtData)) : List MetaRecord :=
  ((lines.filterMap id).map mkYtRecord).take 3

/-- `YouTubeMusicSource.search` over the attempt outcome: a raised
timeout/transport error (after retry exhaustion) yields the empty list. -/
def searchYtm (resp : Except String (List (Option YtData))) : List MetaRecord :=
  match resp with
  | Except.error _ => []
  | Except.ok lines => searchYtmOk lines

/-- First release of a MusicBrainz recording. -/
structure MbRelease where
  title : Option String
  date : Option String
  id : Option String
deriving DecidableEq

/-- One recording of a MusicBrainz search response. -/
structure MbRec where
  title : Option String
  artistCredit0 : Option String
  releases : List MbRelease
deriving DecidableEq

/-- Record built from one MusicBrainz recording (ytmsd.py lines 245-256):
first artist credit (default `'Unknown'`), first release when present. -/
def mkMbRecord (rec : MbRec) : MetaRecord :=
  let release := rec.releases.head?
  ⟨rec.title, some (rec.artistCredit0.getD "Unknown"),
   release.bind (fun r => r.title), release.bind (fun r => r.date),
   none, "MusicBrainz"⟩

/-- `MusicBrainzSource.search` on a successful response: the first three
recordings (`[:3]`), in upstream order. -/
def searchMbOk (recs : List MbRec) : List MetaRecord :=
  (recs.take 3).map mkMbRecord

/-- `MusicBrainzSource.search` over the attempt outcome. -/
def searchMb (resp : Except String (List MbRec)) : List MetaRecord :=
  match resp with
  | Except.error _ => []
  | Except.ok recs => searchMbOk recs

/-- One track of an iTunes search response. -/
structure ItTrack where
  trackName : Option String
  artistName : Option String
  collectionName : Option String
  releaseDate : Option String
  artworkUrl100 : Option String
deriving DecidableEq

/-- Record built from one iTunes track (ytmsd.py lines 347-354): the release
date is truncated to 10 characters and the artwork URL has `100x100`
replaced by the default cover size. -/
def mkItRecord (t : ItTrack) : MetaRecord :=
  ⟨t.trackName, t.artistName, t.collectionName,
   some (String.mk ((t.releaseDate.getD "").data.take 10)),
   some (String.mk (replaceAll "100x100".data defaultConfig.coverSize.data
                      (t.artworkUrl100.getD "").data)),
   "iTunes"⟩

/-- `iTunesSource.search` on a successful response: the first three tracks
(`[:3]`), in upstream order. -/
def searchItOk (tracks : List ItTrack) : List MetaRecord :=
  (tracks.take 3).map mkItRecord

/-- `iTunesSource.search` over the attempt outcome. -/
def searchIt (resp : Except String (List ItTrack)) : List MetaRecord :=
  match resp with
  | Except.error _ => []
  | Except.ok tracks => searchItOk tracks

/-- A Python value, as far as the nested ranking key needs: the result of
`similarity(...)` is a float, and the source then invokes `.lower()` on it. -/
inductive PyVal where
  | vstr (s : String)
  | vnum (q : ℚ)
deriving DecidableEq

/-- Python runtime errors raised by the modelled fragment. -/
inductive PyErr where
  | attributeErrorFloatLower
deriving DecidableEq

/-- Attribute call `.lower()`: defined on strings, an `AttributeError` on a
float. -/
def pyLowerMethod : PyVal → Except PyErr PyVal
  | PyVal.vstr s => Except.ok (PyVal.vstr (lowerS s))
  | PyVal.vnum _ => Except.error PyErr.attributeErrorFloatLower

/-- The nested ranking key of the manual-query branch (ytmsd.py line 916,
ytmscp_cli.py line 864): `similarity(user_input, artist + ' ' + title).lower()`
— `.lower()` applied to the float returned by `similarity`. -/
def nestedSortKey (q : String) (r : MetaRecord) : Except PyErr PyVal :=
  pyLowerMethod (PyVal.vnum (rankScore q r))

/-- Outcome of the nested (depth-1) selection over the re-search results. -/
inductive NestedOutcome where
  | fallback
  | selected (idx : Nat)
deriving DecidableEq

/-- The manual-query re-search flow (ytmsd.py lines 910-929): empty results
use YouTube fallback; otherwise CPython's `list.sort` evaluates the key on
every element before sorting, so the first key evaluation raises before any
display or selection; the (unreachable) selection maps `-1` and `0` to
fallback and any other choice to `new_results[choice - 1]`, with no second
manual-query option. -/
def nestedSelectFlow (q : String) (newResults : List MetaRecord)
    (choice : Int) : Except PyErr NestedOutcome :=
  if newResults.isEmpty then Except.ok NestedOutcome.fallback
  else
    match newResults.mapM (nestedSortKey q) with
    | Except.error e => Except.error e
    | Except.ok _ =>
      Except.ok
        (if choice = -1 ∨ choice = 0 then NestedOutcome.fallback
         else NestedOutcome.selected ((choice - 1).toNat))

/-- Candidate with artist `Artist`, title `Song` (spec example, §8). -/
def candArtistSong : MetaRecord :=
  ⟨some "Song", some "Artist", none, none, none, "MusicBrainz"⟩

/-- Candidate with artist `Other`, title `Unrelated` (spec example, §8). -/
def candOther : MetaRecord :=
  ⟨some "Unrelated", some "Other", none, none, none, "MusicBrainz"⟩

/-- Entry whose uploader is the pure boilerplate `Official`. -/
def entryOfficialUploader : Entry :=
  ⟨none, none, some "Song", some "Official", none, none⟩

/-- Entry carrying a present but empty title. -/
def entryEmptyTitle : Entry :=
  ⟨none, none, some "", some "Uploader", none, none⟩

/-- A well-behaved entry used to witness the amended fallback guarantee. -/
def entryPlain : Entry :=
  ⟨none, none, some "Blue Train", some "Some Channel", none, none⟩

/-- The end-to-end example entry of spec §8: raw title with boilerplate and
an `Artist - Topic` uploader, no explicit track/artist tags. -/
def entryTopicExample : Entry :=
  ⟨none, none, some "Artist - Song (Official Video)", some "Artist - Topic",
   none, none⟩

/-- The same example entry with the uploader missing, exhibiting the branch
where the spec's described derivation actually runs. -/
def entryNoUploaderExample : Entry :=
  ⟨none, none, some "Artist - Song (Official Video)", none, none, none⟩

/-- A URL containing both the `ytimg.com` marker and the
high-resolution-CDN-with-dimensions pattern. -/
def coverBothPatternsUrl : String :=
  "https://lh3.googleusercontent.com/w544-h544/via.ytimg.com/a.jpg"

/-- A configuration whose only change from the defaults is the timeout. -/
def configTimeout99 : Config :=
  ⟨⟨true, true, false⟩, 99, 120, "600x600"⟩

theorem insertDesc_perm {α : Type} (key : α → ℚ) (x : α) (l : List α) :
    List.Perm (insertDesc key x l) (x :: l) := by
  induction l with
  | nil => simp [insertDesc]
  | cons y ys ih =>
    by_cases h : key y ≤ key x
    · simp [insertDesc, h]
    · simp only [insertDesc, if_neg h]
      exact (ih.cons y).trans (List.Perm.swap x y ys)

theorem sortDesc_perm {α : Type} (key : α → ℚ) (l : List α) :
    List.Perm (sortDesc key l) l := by
  induction l with
  | nil => simp [sortDesc]
  | cons x xs ih =>
    exact (insertDesc_perm key x (sortDesc key xs)).trans (ih.cons x)

theorem insertDesc_sorted {α : Type} (key : α → ℚ) (x : α) {l : List α}
    (h : List.Sorted (fun u v => key v ≤ key u) l) :
    List.Sorted (fun u v => key v ≤ key u) (insertDesc key x l) := by
  induction l with
  | nil => simp [insertDesc]
  | cons y ys ih =>
    rw [List.sorted_cons] at h
    by_cases hxy : key y ≤ key x
    · simp only [insertDesc, if_pos hxy]
      rw [List.sorted_cons]
      refine ⟨?_, by rw [List.sorted_cons]; exact h⟩
      intro b hb
      rcases List.mem_cons.mp hb with rfl | hb2
      · exact hxy
      · exact le_trans (h.1 b hb2) hxy
    · simp only [insertDesc, if_neg hxy]
      rw [List.sorted_cons]
      refine ⟨?_, ih h.2⟩
      intro b hb
      rcases List.mem_cons.mp ((insertDesc_perm key x ys).mem_iff.mp hb) with rfl | hb2
      · exact le_of_not_le hxy
      · exact h.1 b hb2

theorem sortDesc_sorted {α : Type} (key : α → ℚ) (l : List α) :
    List.Sorted (fun u v => key v ≤ key u) (sortDesc key l) := by
  induction l with
  | nil => simp [sortDesc]
  | cons x xs ih => exact insertDesc_sorted key x ih

theorem insertDesc_filter {α : Type} (key : α → ℚ) (x : α) (l : List α) (s : ℚ) :
    (insertDesc key x l).filter (fun r => key r == s) =
    (x :: l).filter (fun r => key r == s) := by
  induction l with
  | nil => rfl
  | cons y ys ih =>
    by_cases hxy : key y ≤ key x
    · simp only [insertDesc, if_pos hxy]
    · simp only [insertDesc, if_neg hxy]
      have hlt : key x < key y := lt_of_not_le hxy
      by_cases hx : key x = s
      · have hy : ¬ (key y = s) := fun hy => absurd (hy.trans hx.symm) (ne_of_gt hlt)
        simp [List.filter_cons, hx, hy, ih]
      · by_cases hy : key y = s
        · simp [List.filter_cons, hx, hy, ih]
        · simp [List.filter_cons, hx, hy, ih]

theorem sortDesc_filter {α : Type} (key : α → ℚ) (l : List α) (s : ℚ) :
    (sortDesc key l).filter (fun r => key r == s) =
    l.filter (fun r => key r == s) := by
  induction l with
  | nil => rfl
  | cons x xs ih =>
    rw [sortDesc, insertDesc_filter]
    simp [List.filter_cons, ih]

theorem checkChoice_range (maxChoice : Nat) (s : String) (c : Int)
    (h : checkChoice maxChoice s = some c) :
    c = -1 ∨ (0 ≤ c ∧ c ≤ (maxChoice : Int)) := by
  unfold checkChoice at h
  split at h
  · rw [Option.some_inj] at h
    exact Or.inl h.symm
  · split at h
    · split at h
      · rename_i n hn hrange
        rw [Option.some_inj] at h
        exact Or.inr (h ▸ hrange)
      · cases h
    · cases h

theorem chooseLoop_range (maxChoice : Nat) (s : String)
    (rest : List RepromptEvent) (c : Int)
    (h : chooseLoop maxChoice s rest = some c) :
    c = -1 ∨ (0 ≤ c ∧ c ≤ (maxChoice : Int)) := by
  induction rest generalizing s with
  | nil => exact checkChoice_range maxChoice s c h
  | cons ev rest2 ih =>
    cases ev with
    | interrupted =>
      rw [chooseLoop] at h
      rcases hc : checkChoice maxChoice s with _ | c0
      · rw [hc] at h
        simp only [Option.some_inj] at h
        by_cases hm : 0 < maxChoice
        · simp only [if_pos hm] at h
          omega
        · simp only [if_neg hm] at h
          omega
      · rw [hc] at h
        simp only [Option.some_inj] at h
        exact h ▸ checkChoice_range maxChoice s c0 hc
    | line t =>
      rw [chooseLoop] at h
      rcases hc : checkChoice maxChoice s with _ | c0
      · rw [hc] at h
        exact ih (pyStrip t) h
      · rw [hc] at h
        simp only [Option.some_inj] at h
        exact h ▸ checkChoice_range maxChoice s c0 hc

/-- Claim C1, counterexample: the terminal YouTube fallback does return empty
fields.  For an entry whose uploader is exactly `Official`, the boilerplate
stripping leaves an empty artist; for an entry whose title is present but
empty, the `'Unknown'` default does not apply and the title stays empty; the
uploader `VEVO` likewise cleans to the empty string. -/
theorem C1_counterexample :
    (ytFallbackMetadata none entryOfficialUploader).artist = some "" ∧
    (ytFallbackMetadata none entryEmptyTitle).title = some "" ∧
    cleanUploader "VEVO" = "" := by decide

/-- Claim C1 (amended): `get_youtube_fallback_metadata` returns the fetched
or entry title (defaulting to `'Unknown'` only when absent) and the
boilerplate-cleaned uploader as artist; these are non-empty provided the
title source is non-empty and cleaning the uploader leaves a non-empty
string.  Entries with an empty title or an uploader consisting solely of
boilerplate violate the original non-emptiness claim. -/
theorem C1_fallback_nonempty (fetched : Option YtBasic) (e : Entry)
    (ht : fbTitleSrc fetched e ≠ "")
    (ha : cleanUploader (fbUploaderSrc fetched e) ≠ "") :
    (ytFallbackMetadata fetched e).title = some (fbTitleSrc fetched e) ∧
    (ytFallbackMetadata fetched e).artist =
      some (cleanUploader (fbUploaderSrc fetched e)) ∧
    (ytFallbackMetadata fetched e).title ≠ some "" ∧
    (ytFallbackMetadata fetched e).artist ≠ some "" := by
  cases fetched with
  | none =>
    refine ⟨rfl, rfl, ?_, ?_⟩
    · intro hcontra
      exact ht (Option.some_inj.mp hcontra)
    · intro hcontra
      exact ha (Option.some_inj.mp hcontra)
  | some d =>
    refine ⟨rfl, rfl, ?_, ?_⟩
    · intro hcontra
      exact ht (Option.some_inj.mp hcontra)
    · intro hcontra
      exact ha (Option.some_inj.mp hcontra)

/-- Claim C1 witness: the amended guarantee instantiated at a concrete entry
with a non-boilerplate uploader. -/
theorem C1_fallback_nonempty_witness :
    (ytFallbackMetadata none entryPlain).title = some (fbTitleSrc none entryPlain) ∧
    (ytFallbackMetadata none entryPlain).artist =
      some (cleanUploader (fbUploaderSrc none entryPlain)) ∧
    (ytFallbackMetadata none entryPlain).title ≠ some "" ∧
    (ytFallbackMetadata none entryPlain).artist ≠ some "" :=
  C1_fallback_nonempty none entryPlain (by decide) (by decide)

/-- Claim C2, counterexample: with an empty candidate list the countdown
timeout returns choice `0`, and ytmsd.py routes choice `0` to the blocking
`input("Enter metadata link or search query: ")` prompt rather than directly
to the source-platform fallback. -/
theorem C2_counterexample :
    getUserChoice 0 FirstEvent.timeout [] = some 0 ∧
    ytmsdZeroResultsStep 0 = ZeroResultsStep.promptLinkOrQuery ∧
    ytmsdZeroResultsStep 0 ≠ ZeroResultsStep.ytFallback := by decide

/-- Claim C2 (amended): on countdown timeout the selector returns `1` for a
non-empty candidate list and `0` for an empty one; in ytmsd.py that `0` is
routed to one further blocking link/query prompt, whose empty input then
yields the source-platform fallback, while ytmscp_cli.py proceeds to the
fallback directly. -/
theorem C2_selector_timeout (maxChoice : Nat) (h : 0 < maxChoice) :
    getUserChoice maxChoice FirstEvent.timeout [] = some 1 ∧
    getUserChoice 0 FirstEvent.timeout [] = some 0 ∧
    ytmsdZeroResultsStep 0 = ZeroResultsStep.promptLinkOrQuery ∧
    ytmsdPromptOutcome "" = PromptOutcome.fallbackMeta ∧
    ytmscpZeroResultsStep 0 = ZeroResultsStep.ytFallback := by
  refine ⟨?_, by decide, by decide, by decide, by decide⟩
  simp [getUserChoice, h]

/-- Claim C2 witness: the amended behaviour at a two-candidate list. -/
theorem C2_selector_timeout_witness :
    getUserChoice 2 FirstEvent.timeout [] = some 1 ∧
    getUserChoice 0 FirstEvent.timeout [] = some 0 ∧
    ytmsdZeroResultsStep 0 = ZeroResultsStep.promptLinkOrQuery ∧
    ytmsdPromptOutcome "" = PromptOutcome.fallbackMeta ∧
    ytmscpZeroResultsStep 0 = ZeroResultsStep.ytFallback :=
  C2_selector_timeout 2 (by decide)

set_option maxRecDepth 40000 in
/-- Claim C3: the ranking is a permutation of the candidate list, sorted by
descending similarity score with ties keeping their original relative order
(elements of any fixed score appear in unchanged order), where each
candidate's score is the sequence-similarity ratio of the lowercased query
against the lowercased `artist + ' ' + title`; on the spec's example the
exact-match candidate scores `1` and ranks first. -/
theorem C3_ranker :
    (∀ (q : String) (l : List MetaRecord),
      List.Perm (rankResults q l) l ∧
      List.Sorted (fun u v => rankScore q v ≤ rankScore q u) (rankResults q l) ∧
      (∀ s : ℚ, (rankResults q l).filter (fun r => rankScore q r == s) =
                l.filter (fun r => rankScore q r == s))) ∧
    (∀ (q : String) (r : MetaRecord),
      rankScore q r =
        similarityQ (lowerS q)
          (lowerS ((r.artist.getD "") ++ " " ++ (r.title.getD "")))) ∧
    rankScore "Artist Song" candArtistSong = 1 ∧
    rankResults "Artist Song" [candOther, candArtistSong] =
      [candArtistSong, candOther] := by
  refine ⟨fun q l => ⟨sortDesc_perm _ _, sortDesc_sorted _ _,
    fun s => sortDesc_filter _ _ _⟩, fun q r => rfl, by decide, by decide⟩

/-- Claim C4, counterexample: for the spec's example entry (raw title
`Artist - Song (Official Video)`, uploader `Artist - Topic`, no tags) the
truthy uploader short-circuits query derivation, so the query is the raw
uploader concatenated with the raw title, not `Artist Song`. -/
theorem C4_counterexample :
    buildQuery entryTopicExample =
      "Artist - Topic Artist - Song (Official Video)" ∧
    buildQuery entryTopicExample ≠ "Artist Song" := by decide

/-- Claim C4 (amended): query construction prefers the explicit artist tag,
then the raw uploader, concatenated uncleaned with the explicit track tag or
raw title; only when the artist tag and uploader are both empty does the
query derive from the cleaned title (splitting an `Artist - Title` pattern,
else cleaned uploader plus cleaned title), and on that branch the spec's
example title does yield `Artist Song`. -/
theorem C4_query_construction (e : Entry) :
    (pyOrS e.artist (e.uploader.getD "") ≠ "" →
      buildQuery e =
        pyOrS e.artist (e.uploader.getD "") ++ " " ++
          pyOrS e.track (e.title.getD "")) ∧
    (pyOrS e.artist (e.uploader.getD "") = "" →
      buildQuery e = extractSearchQuery e) ∧
    extractSearchQuery entryNoUploaderExample = "Artist Song" ∧
    buildQuery entryNoUploaderExample = "Artist Song" := by
  refine ⟨?_, ?_, by decide, by decide⟩
  · intro hne
    simp [buildQuery, hne]
  · intro heq
    simp [buildQuery, heq]

/-- Claim C4 witness: the amended characterisation applied to the example
entry, whose uploader is truthy. -/
theorem C4_query_construction_witness :
    pyOrS entryTopicExample.artist (entryTopicExample.uploader.getD "") ≠ "" ∧
    buildQuery entryTopicExample =
      pyOrS entryTopicExample.artist (entryTopicExample.uploader.getD "") ++ " " ++
        pyOrS entryTopicExample.track (entryTopicExample.title.getD "") :=
  ⟨by decide, (C4_query_construction entryTopicExample).1 (by decide)⟩

/-- Claim C5: under the retry policy with budget 3, an operation failing on
the first two attempts and succeeding on the third returns the success value,
and an operation failing on all three attempts returns its miss value without
raising; in both runs the fixed 2-second backoff is taken after each failure
that is not the final attempt (4 seconds total). -/
theorem C5_retry_policy {α : Type} (att : Nat → Except String α)
    (missVal v : α) (e0 e1 : String) :
    (att 0 = Except.error e0 → att 1 = Except.error e1 →
      att 2 = Except.ok v → retryRun 3 att missVal = (v, 4)) ∧
    ((∀ i, i < 3 → ∃ e, att i = Except.error e) →
      retryRun 3 att missVal = (missVal, 4)) := by
  constructor
  · intro h0 h1 h2
    simp [retryRun, retryGo, h0, h1, h2]
  · intro hall
    obtain ⟨a0, h0⟩ := hall 0 (by omega)
    obtain ⟨a1, h1⟩ := hall 1 (by omega)
    obtain ⟨a2, h2⟩ := hall 2 (by omega)
    simp [retryRun, retryGo, h0, h1, h2]

/-- Claim C5 witness: concrete fail-fail-succeed and all-fail operations. -/
theorem C5_retry_policy_witness :
    retryRun 3 (fun i => if i < 2 then Except.error "boom" else Except.ok 7) 0
      = (7, 4) ∧
    retryRun 3 (fun _ => (Except.error "boom" : Except String (List Nat))) []
      = ([], 4) :=
  ⟨(C5_retry_policy (fun i => if i < 2 then Except.error "boom" else Except.ok 7)
      0 7 "boom" "boom").1 rfl rfl rfl,
   (C5_retry_policy (fun _ => (Except.error "boom" : Except String (List Nat)))
      [] [] "boom" "boom").2 (fun _ _ => ⟨"boom", rfl⟩)⟩

/-- Claim C6, counterexample: ytmsd.py classifies by the `ytimg.com` marker
alone, without the high-resolution-pattern exclusion, so a URL carrying both
the `ytimg.com` marker and the high-resolution-CDN-with-dimensions pattern is
cropped although the claim requires it to be used as-is. -/
theorem C6_counterexample :
    ¬ (coverPlanYtmsd coverBothPatternsUrl = CoverPlan.cropSquareThenScale 600 600 ↔
        (containsSub "ytimg.com".data coverBothPatternsUrl.data = true ∧
         highResDim coverBothPatternsUrl = false)) := by decide

/-- Claim C6 (amended): ytmsd.py emits the centred square-crop-then-600x600
transform exactly when the URL contains `ytimg.com`, with no high-resolution
exclusion, and uses every other URL as-is; only ytmscp_cli.py implements the
claimed conjunction with the high-resolution-CDN-with-dimensions pattern. -/
theorem C6_cover_classifier (url : String) :
    (coverPlanYtmsd url = CoverPlan.cropSquareThenScale 600 600 ↔
      containsSub "ytimg.com".data url.data = true) ∧
    (coverPlanYtmsd url = CoverPlan.asIs ↔
      containsSub "ytimg.com".data url.data = false) ∧
    (coverPlanYtmscp url = CoverPlan.cropSquareThenScale 600 600 ↔
      (containsSub "ytimg.com".data url.data = true ∧ highResDim url = false)) ∧
    (coverPlanYtmscp url = CoverPlan.asIs ↔
      ¬ (containsSub "ytimg.com".data url.data = true ∧ highResDim url = false)) := by
  cases h1 : containsSub "ytimg.com".data url.data <;>
    cases h2 : highResDim url <;>
      simp [coverPlanYtmsd, coverPlanYtmscp, h1, h2]

/-- Claim C7: each provider search caps its result list at three records, in
upstream order (the kept records are a prefix of the records built from the
full upstream response), and a transport or parse failure yields the empty
list instead of an exception. -/
theorem C7_search_contract :
    (∀ lines : List (Option YtData),
      (searchYtmOk lines).length ≤ 3 ∧
      ∃ rest, (lines.filterMap id).map mkYtRecord = searchYtmOk lines ++ rest) ∧
    (∀ err : String, searchYtm (Except.error err) = []) ∧
    (∀ recs : List MbRec,
      (searchMbOk recs).length ≤ 3 ∧
      ∃ rest, recs.map mkMbRecord = searchMbOk recs ++ rest) ∧
    (∀ err : String, searchMb (Except.error err) = []) ∧
    (∀ tracks : List ItTrack,
      (searchItOk tracks).length ≤ 3 ∧
      ∃ rest, tracks.map mkItRecord = searchItOk tracks ++ rest) ∧
    (∀ err : String, searchIt (Except.error err) = []) := by
  refine ⟨fun lines => ⟨?_, ⟨((lines.filterMap id).map mkYtRecord).drop 3, ?_⟩⟩,
    fun err => rfl,
    fun recs => ⟨?_, ⟨(recs.map mkMbRecord).drop 3, ?_⟩⟩,
    fun err => rfl,
    fun tracks => ⟨?_, ⟨(tracks.map mkItRecord).drop 3, ?_⟩⟩,
    fun err => rfl⟩
  · simp [searchYtmOk]
  · simp [searchYtmOk]
  · simp [searchMbOk]
  · rw [searchMbOk, List.map_take]
    exact (List.take_append_drop 3 (recs.map mkMbRecord)).symm
  · simp [searchItOk]
  · rw [searchItOk, List.map_take]
    exact (List.take_append_drop 3 (tracks.map mkItRecord)).symm

/-- Claim C8, code evaluation at the failing input: the nested re-search
ranking key applies `.lower()` to the float returned by `similarity`, so with
any non-empty re-search result the nested flow raises `AttributeError` before
any selection can happen; only the empty-result path reaches an outcome. -/
theorem C8_nested_query_crash :
    nestedSortKey "Artist Song" candArtistSong =
      Except.error PyErr.attributeErrorFloatLower ∧
    nestedSelectFlow "Artist Song" [candArtistSong] 1 =
      Except.error PyErr.attributeErrorFloatLower ∧
    nestedSelectFlow "Artist Song" [] 5 = Except.ok NestedOutcome.fallback := by
  exact ⟨rfl, rfl, rfl⟩

/-- Claim C9, counterexample: loading a configuration whose timeout is 99
does not change the timeout used by provider calls, which always read the
module-level default (15), so the per-call timeout is not
configuration-driven within a run. -/
theorem C9_counterexample :
    (loadConfig (some configTimeout99)).timeout = 99 ∧
    (loadConfig none).timeout = 15 ∧
    providerCallTimeout (loadConfig (some configTimeout99)) =
      providerCallTimeout (loadConfig none) ∧
    providerCallTimeout (loadConfig (some configTimeout99)) = 15 := by decide

/-- Claim C9 (amended): every provider search/fetch/cover call uses the
module-level default timeout of 15 seconds (120 seconds for audio
downloads), regardless of the configuration loaded at startup. -/
theorem C9_timeout_hardwired (loaded : Config) :
    providerCallTimeout loaded = 15 ∧ providerFetchTimeout loaded = 120 :=
  ⟨rfl, rfl⟩

/-- Claim C10: whenever `get_user_choice` returns, the value is `-1` or an
integer between `0` and `max_choice`, so indexing the candidate list at
`choice - 1` for a returned `choice ≥ 1` is always in bounds when
`max_choice` is the list's length. -/
theorem C10_choice_range (maxChoice : Nat) (first : FirstEvent)
    (rest : List RepromptEvent) (c : Int)
    (h : getUserChoice maxChoice first rest = some c) :
    (c = -1 ∨ (0 ≤ c ∧ c ≤ (maxChoice : Int))) ∧
    (∀ l : List MetaRecord, maxChoice = l.length → 1 ≤ c →
      (c - 1).toNat < l.length) := by
  have hrange : c = -1 ∨ (0 ≤ c ∧ c ≤ (maxChoice : Int)) := by
    cases first with
    | timeout =>
      simp only [getUserChoice, Option.some_inj] at h
      right
      by_cases hm : 0 < maxChoice
      · rw [if_pos hm] at h
        omega
      · rw [if_neg hm] at h
        omega
    | inputFailed =>
      simp only [getUserChoice, Option.some_inj] at h
      right
      by_cases hm : 0 < maxChoice
      · rw [if_pos hm] at h
        omega
      · rw [if_neg hm] at h
        omega
    | entered s => exact chooseLoop_range maxChoice (pyStrip s) rest c h
  refine ⟨hrange, ?_⟩
  intro l hlen hc1
  rcases hrange with rfl | ⟨h0, hle⟩
  · omega
  · rw [← hlen]
    omega

/-- Claim C10 witness: the range property at `max_choice = 3` with the
entered line `"2"`. -/
theorem C10_choice_range_witness :
    ((2 : Int) = -1 ∨ (0 ≤ (2 : Int) ∧ (2 : Int) ≤ ((3 : Nat) : Int))) ∧
    (∀ l : List MetaRecord, 3 = l.length → 1 ≤ (2 : Int) →
      ((2 : Int) - 1).toNat < l.length) :=
  C10_choice_range 3 (FirstEvent.entered "2") [] 2 (by decide)
